import Mathlib

/-!
Shallow embedding of the financial data aggregation and portfolio
analytics core of the TestProject12 repository: the APICache class
(TTL cache, sliding-window rate limiter, retrying fetch wrapper),
the risk scoring and investment recommendation functions, the
sector and industry normalization pipeline, the portfolio holding
processing loop and the XIRR Newton-Raphson solver.

JavaScript numbers are modelled as rationals; millisecond clock
readings as integers that every stateful operation receives
explicitly; network requests as oracles mapping the attempt index
to an outcome.  The transcendental power function used by the XIRR
solver is passed in as an abstract parameter.
-/

namespace StockApp

/-! ### String utilities

Models of the JavaScript string operations used by the source:
substring containment, as in the message.includes checks, and
number-to-string conversion for the template literals that build
error messages. -/

/-- Does the character list start with the given pattern? -/
def subAt : List Char → List Char → Bool
  | [], _ => true
  | _ :: _, [] => false
  | p :: ps, c :: cs => p == c && subAt ps cs

/-- Does the pattern occur anywhere inside the character list?
Model of the JavaScript String.prototype.includes test. -/
def hasSub : List Char → List Char → Bool
  | pat, [] => subAt pat []
  | pat, c :: cs => subAt pat (c :: cs) || hasSub pat cs

/-- String version of hasSub: strIncludes s pat is true when pat
occurs as a contiguous substring of s. -/
def strIncludes (s pat : String) : Bool :=
  hasSub pat.toList s.toList

/-- Decimal digit character for a value below ten. -/
def digitChar (n : ℕ) : Char :=
  Char.ofNat (48 + n)

/-- Fuel-driven digit expansion: the fuel bounds the number of
divisions by ten, so the recursion is structural. -/
def natStrAux : ℕ → ℕ → List Char
  | 0, _ => []
  | fuel + 1, n =>
    if n < 10 then [digitChar n]
    else natStrAux fuel (n / 10) ++ [digitChar (n % 10)]

/-- Decimal representation of a natural number as a character list,
most significant digit first.  Models JavaScript number-to-string
conversion for the nonnegative integer HTTP status codes. -/
def natStr (n : ℕ) : List Char :=
  natStrAux (n + 1) n

/-- ASCII lowercase conversion of one character, the model of the
JavaScript toLowerCase call on the provider strings, which are
ASCII. -/
def lowerChar (c : Char) : Char :=
  if 65 ≤ c.toNat ∧ c.toNat ≤ 90 then Char.ofNat (c.toNat + 32) else c

/-- ASCII lowercase conversion of a string. -/
def strLower (s : String) : String :=
  String.mk (s.toList.map lowerChar)

/-! ### APICache state

The source class APICache keeps two module-global maps: a cache
from full URL to a stored value with its store time and ttl, and a
request log from endpoint pathname to the list of admitted request
timestamps.  Both maps are modelled as functions with an explicit
empty default. -/

/-- One cache entry: the stored data, the clock reading at the
store, and the time to live, all in milliseconds. -/
structure CacheEntry (α : Type) where
  data : α
  timestamp : ℤ
  ttl : ℤ
deriving DecidableEq

/-- The mutable state of the APICache class: the value cache keyed
by full URL and the rate-limit request log keyed by endpoint. -/
structure APICacheState (α : Type) where
  cache : String → Option (CacheEntry α)
  requestLog : String → List ℤ

/-- The state of a freshly constructed APICache: both maps empty. -/
def emptyState (α : Type) : APICacheState α :=
  ⟨fun _ => none, fun _ => []⟩

/-- Model of APICache.isRateLimited.  Prunes the endpoint log to
the timestamps inside the trailing 60 second window; when 30 or
more remain it reports limited and leaves the state untouched,
otherwise it records the current timestamp into the pruned log and
admits the call. -/
def isRateLimited (endpoint : String) (now : ℤ) (st : APICacheState α) :
    Bool × APICacheState α :=
  let logs := st.requestLog endpoint
  let recentLogs := logs.filter (fun ts => now - ts < 60000)
  if 30 ≤ recentLogs.length then
    (true, st)
  else
    (false,
      { st with
        requestLog := fun e =>
          if e = endpoint then recentLogs ++ [now] else st.requestLog e })

/-- Model of APICache.get.  Returns the stored data while less
than ttl milliseconds have passed since the store; an entry whose
age exceeds its ttl is deleted on the read and reported absent. -/
def cacheGet (key : String) (now : ℤ) (st : APICacheState α) :
    Option α × APICacheState α :=
  match st.cache key with
  | none => (none, st)
  | some item =>
    if item.ttl < now - item.timestamp then
      (none, { st with cache := fun k => if k = key then none else st.cache k })
    else
      (some item.data, st)

/-- Model of APICache.set: store the data under the key with the
current clock reading and the given ttl, replacing any previous
entry for that key.  The source defaults ttl to 300000 ms when the
caller omits it; callers of this model pass the resolved value. -/
def cacheSet (key : String) (data : α) (ttl : ℤ) (now : ℤ)
    (st : APICacheState α) : APICacheState α :=
  { st with
    cache := fun k => if k = key then some ⟨data, now, ttl⟩ else st.cache k }

/-! ### fetchWithRetry

The retry loop of APICache.fetchWithRetry.  One network attempt is
modelled by an oracle mapping the 0-indexed attempt number to an
outcome: a parsed 2xx body, a non-ok HTTP status, or a thrown
transport failure (a rejected fetch or a json parse error).  The
thrown Error objects are modelled by the ApiError type, whose
message function reproduces the exact message strings built by the
source; the loop breaks out of retrying exactly when the caught
message contains the substring rate limit or the substring
HTTP error: 4, and otherwise sleeps 2 to the power attempt seconds
before the next attempt. -/

/-- Outcome of one fetch attempt against the network. -/
inductive FetchOutcome (α : Type) where
  | success (data : α)
  | httpStatus (status : ℕ)
  | transportFailure
deriving DecidableEq

/-- The Error values thrown inside fetchWithRetry, one constructor
per throw site, plus the fallback used when no attempt ran. -/
inductive ApiError where
  | rateLimitedWindow
  | rateLimitUpstream
  | serverError (status : ℕ)
  | httpError (status : ℕ)
  | transportFailed
  | allRetriesFailed
deriving DecidableEq

/-- The exact message string carried by each thrown Error in the
source.  A generic transport failure carries whatever message the
environment produced; the browser wording Failed to fetch stands
in for it, the loop only ever inspects it through substring tests
that no such message satisfies. -/
def ApiError.message : ApiError → String
  | .rateLimitedWindow => "Rate limited. Please wait before making more requests."
  | .rateLimitUpstream => "API rate limit exceeded. Please wait a moment."
  | .serverError status => "Server error: " ++ String.mk (natStr status)
  | .httpError status => "HTTP error: " ++ String.mk (natStr status)
  | .transportFailed => "Failed to fetch"
  | .allRetriesFailed => "All retry attempts failed"

/-- Classification of a non-ok HTTP status into the Error thrown
by the response handling: 429 first, then any 5xx, then the
generic HTTP error. -/
def classifyStatus (status : ℕ) : ApiError :=
  if status = 429 then .rateLimitUpstream
  else if 500 ≤ status then .serverError status
  else .httpError status

/-- The break condition of the catch block: stop retrying when the
caught message contains rate limit or contains HTTP error: 4. -/
def breaksRetry (e : ApiError) : Bool :=
  strIncludes e.message "rate limit" || strIncludes e.message "HTTP error: 4"

/-- The retry loop of fetchWithRetry, by remaining attempts.  The
fuel starts at maxRetries and attempt at 0; lastError holds the
most recent caught error.  On a break or on exhaustion the last
error is rethrown; the returned list records the backoff delays in
seconds, one entry of 2 to the power attempt per sleep, which the
source performs only when another attempt follows. -/
def retryLoop (oracle : ℕ → FetchOutcome α) :
    ℕ → ℕ → Option ApiError → List ℕ → Except ApiError α × List ℕ
  | 0, _, lastError, delays =>
    (Except.error (lastError.getD ApiError.allRetriesFailed), delays)
  | fuel + 1, attempt, _, delays =>
    match oracle attempt with
    | FetchOutcome.success data => (Except.ok data, delays)
    | FetchOutcome.httpStatus status =>
      let e := classifyStatus status
      if breaksRetry e then (Except.error e, delays)
      else
        match fuel with
        | 0 => (Except.error e, delays)
        | _ + 1 => retryLoop oracle fuel (attempt + 1) (some e) (delays ++ [2 ^ attempt])
    | FetchOutcome.transportFailure =>
      let e := ApiError.transportFailed
      if breaksRetry e then (Except.error e, delays)
      else
        match fuel with
        | 0 => (Except.error e, delays)
        | _ + 1 => retryLoop oracle fuel (attempt + 1) (some e) (delays ++ [2 ^ attempt])

/-- Result of one fetchWithRetry call: the returned value or
thrown error, the cache state after the call, and the backoff
delays that were slept, in order. -/
structure FetchResult (α : Type) where
  result : Except ApiError α
  state : APICacheState α
  delays : List ℕ

/-- Model of APICache.fetchWithRetry.  The endpoint parameter
stands for the URL pathname the source computes for rate-limiting,
distinct from the full URL cache key.  The call first consults the
rate window, then the cache, then runs the retry loop, storing a
successful body under the full URL with the given ttl, defaulted
to 300000 ms.  The source tests the truthiness of the cached
value; cached bodies are treated as truthy here. -/
def fetchWithRetry (endpoint url : String) (maxRetries : ℕ) (ttl : Option ℤ)
    (oracle : ℕ → FetchOutcome α) (now : ℤ) (st : APICacheState α) :
    FetchResult α :=
  match isRateLimited endpoint now st with
  | (true, st1) => ⟨Except.error ApiError.rateLimitedWindow, st1, []⟩
  | (false, st1) =>
    match cacheGet url now st1 with
    | (some v, st2) => ⟨Except.ok v, st2, []⟩
    | (none, st2) =>
      match retryLoop oracle maxRetries 0 none [] with
      | (Except.ok data, delays) =>
        ⟨Except.ok data, cacheSet url data (ttl.getD 300000) now st2, delays⟩
      | (Except.error e, delays) => ⟨Except.error e, st2, delays⟩

/-! ### Risk scoring

Model of the getRiskLevel function.  JavaScript numbers appear as
rationals; the optional debtToEquity parameter is an Option whose
truthiness test the source writes as a bare if, so an absent value
and a zero value both skip the debt rule. -/

/-- Return value of getRiskLevel. -/
structure RiskAssessment where
  level : String
  color : String
  explanation : String
  score : ℕ
deriving DecidableEq

/-- Model of getRiskLevel: an additive rubric over beta, the price
to earnings ratio, market cap in billions and optionally the debt
to equity ratio, bucketed at 6 and 3. -/
def getRiskLevel (beta peRatio marketCap : ℚ) (debtToEquity : Option ℚ) :
    RiskAssessment :=
  let betaPts : ℕ :=
    if 1.5 < beta then 3 else if 1.2 < beta then 2 else if 1 < beta then 1 else 0
  let pePts : ℕ :=
    if 30 < peRatio then 3 else if 20 < peRatio then 2 else if 15 < peRatio then 1 else 0
  let capPts : ℕ :=
    if marketCap < 2 then 3 else if marketCap < 10 then 2 else if marketCap < 50 then 1 else 0
  let debtPts : ℕ :=
    match debtToEquity with
    | none => 0
    | some d => if d = 0 then 0 else if 1 < d then 2 else if 0.5 < d then 1 else 0
  let riskScore := betaPts + pePts + capPts + debtPts
  if 6 ≤ riskScore then
    { level := "High Risk", color := "text-red-400",
      explanation := "High volatility and risk factors. Potential for large gains/losses. Suitable for experienced investors.",
      score := riskScore }
  else if 3 ≤ riskScore then
    { level := "Medium Risk", color := "text-yellow-400",
      explanation := "Moderate volatility and balanced risk/reward profile. Good for diversified portfolios.",
      score := riskScore }
  else
    { level := "Low Risk", color := "text-green-400",
      explanation := "Lower volatility and stable investment characteristics. Suitable for conservative investors.",
      score := riskScore }

/-! ### Investment recommendation

Model of generateInvestmentRecommendation.  Only the fields the
function reads are modelled from the StockDetails interface; every
numeric field is optional and guarded by a JavaScript truthiness
test, so absent and zero both skip a rule. -/

/-- The fields of the StockDetails record that the recommendation
function reads.  The momentum field models
technicalIndicators.momentum on an optional technicalIndicators
object. -/
structure StockDetails where
  peRatio : Option ℚ
  roe : Option ℚ
  debtToEquity : Option ℚ
  currentRatio : Option ℚ
  grossMargin : Option ℚ
  changePercent : Option ℚ
  momentum : Option String
  volume : Option ℚ
  avgVolume : Option ℚ
  dividend : Option ℚ
deriving DecidableEq

/-- Return value of generateInvestmentRecommendation. -/
structure StockRecommendation where
  longTerm : ℚ
  shortTerm : ℚ
  dividend : ℚ
  overall : String
  reasons : List String
deriving DecidableEq

/-- Truthiness guard for an optional numeric field combined with a
comparison, as in the source pattern field and field compares. -/
def truthyAnd (o : Option ℚ) (p : ℚ → Bool) : Bool :=
  match o with
  | some x => x != 0 && p x
  | none => false

/-- Model of generateInvestmentRecommendation: long-term, short-
term and dividend scores with their reason strings, the overall
label from the average of the three scores, each score clamped to
the range 0 to 10 and the reasons capped at five. -/
def generateInvestmentRecommendation (sd : StockDetails) : StockRecommendation :=
  let longTerm0 : ℚ := 5
  let shortTerm0 : ℚ := 5
  let reasons0 : List String := []
  let t1 := truthyAnd sd.peRatio (fun x => decide (x < 15))
  let longTerm1 := if t1 then longTerm0 + 1 else longTerm0
  let reasons1 := if t1 then reasons0 ++ ["Attractive valuation"] else reasons0
  let t2 := truthyAnd sd.roe (fun x => decide (15 < x))
  let longTerm2 := if t2 then longTerm1 + 1 else longTerm1
  let reasons2 := if t2 then reasons1 ++ ["Strong profitability"] else reasons1
  let t3 := truthyAnd sd.debtToEquity (fun x => decide (x < 0.5))
  let longTerm3 := if t3 then longTerm2 + 1 else longTerm2
  let reasons3 := if t3 then reasons2 ++ ["Strong balance sheet"] else reasons2
  let t4 := truthyAnd sd.currentRatio (fun x => decide (1.5 < x))
  let longTerm4 := if t4 then longTerm3 + 1 else longTerm3
  let reasons4 := if t4 then reasons3 ++ ["Good liquidity"] else reasons3
  let t5 := truthyAnd sd.grossMargin (fun x => decide (30 < x))
  let longTerm5 := if t5 then longTerm4 + 1 else longTerm4
  let reasons5 := if t5 then reasons4 ++ ["High margins"] else reasons4
  let t6 := truthyAnd sd.changePercent (fun x => decide (5 < x))
  let shortTerm6 := if t6 then shortTerm0 + 2 else shortTerm0
  let reasons6 := if t6 then reasons5 ++ ["Strong momentum"] else reasons5
  let t7 := truthyAnd sd.changePercent (fun x => decide (x < -5))
  let shortTerm7 := if t7 then shortTerm6 - 2 else shortTerm6
  let t8 := sd.momentum == some "BULLISH"
  let shortTerm8 := if t8 then shortTerm7 + 1 else shortTerm7
  let reasons8 := if t8 then reasons6 ++ ["Bullish technicals"] else reasons6
  let t9 :=
    match sd.volume, sd.avgVolume with
    | some v, some av => v != 0 && av != 0 && decide (av * 1.5 < v)
    | _, _ => false
  let shortTerm9 := if t9 then shortTerm8 + 1 else shortTerm8
  let reasons9 := if t9 then reasons8 ++ ["High trading volume"] else reasons8
  let dividendAndReasons :=
    match sd.dividend with
    | some d =>
      if d != 0 then
        (min (10 : ℚ) (d * 2),
          if decide (3 < d) then reasons9 ++ ["Good dividend yield"] else reasons9)
      else ((0 : ℚ), reasons9)
    | none => ((0 : ℚ), reasons9)
  let dividendScore := dividendAndReasons.1
  let reasons10 := dividendAndReasons.2
  let averageScore := (longTerm5 + shortTerm9 + dividendScore) / 3
  let overall :=
    if averageScore ≤ 4 then "SELL"
    else if 7 ≤ averageScore then "BUY"
    else "HOLD"
  { longTerm := max 0 (min 10 longTerm5),
    shortTerm := max 0 (min 10 shortTerm9),
    dividend := max 0 (min 10 dividendScore),
    overall := overall,
    reasons := reasons10.take 5 }

/-- The reason strings whose rules fire, in trigger order, as the
amended claim describes them: every triggering rule contributes
its string except the negative momentum penalty, which contributes
nothing, and the dividend rule, which contributes its string only
when the dividend yield exceeds 3. -/
def reasonsTriggered (sd : StockDetails) : List String :=
  (if truthyAnd sd.peRatio (fun x => decide (x < 15)) then ["Attractive valuation"] else [])
    ++ (if truthyAnd sd.roe (fun x => decide (15 < x)) then ["Strong profitability"] else [])
    ++ (if truthyAnd sd.debtToEquity (fun x => decide (x < 0.5)) then ["Strong balance sheet"] else [])
    ++ (if truthyAnd sd.currentRatio (fun x => decide (1.5 < x)) then ["Good liquidity"] else [])
    ++ (if truthyAnd sd.grossMargin (fun x => decide (30 < x)) then ["High margins"] else [])
    ++ (if truthyAnd sd.changePercent (fun x => decide (5 < x)) then ["Strong momentum"] else [])
    ++ (if sd.momentum == some "BULLISH" then ["Bullish technicals"] else [])
    ++ (if (match sd.volume, sd.avgVolume with
            | some v, some av => v != 0 && av != 0 && decide (av * 1.5 < v)
            | _, _ => false) then ["High trading volume"] else [])
    ++ (if truthyAnd sd.dividend (fun d => decide (3 < d)) then ["Good dividend yield"] else [])

/-! ### Sector and industry normalization

Models of the normalizeSector, normalizeIndustry and
getManualSectorMapping helpers defined inside fetchPortfolioData,
and of the manual fallback step that follows them. -/

/-- Model of normalizeSector: lowercase the raw sector name, run
the ordered case-insensitive substring rules with the first match
winning, and fall back to Technology. -/
def normalizeSector (sectorName : String) : String :=
  let s := strLower sectorName
  if strIncludes s "technology" || strIncludes s "information technology" ||
      strIncludes s "software" || strIncludes s "internet" then "Technology"
  else if strIncludes s "health" || strIncludes s "pharmaceuticals" ||
      strIncludes s "biotech" || strIncludes s "medical" then "Healthcare"
  else if strIncludes s "financial" || strIncludes s "bank" ||
      strIncludes s "insurance" || strIncludes s "finance" then "Financial Services"
  else if strIncludes s "consumer" || strIncludes s "retail" ||
      strIncludes s "discretionary" || strIncludes s "staples" then "Consumer Goods"
  else if strIncludes s "energy" || strIncludes s "oil" ||
      strIncludes s "gas" || strIncludes s "petroleum" then "Energy"
  else if strIncludes s "industrial" || strIncludes s "manufacturing" ||
      strIncludes s "aerospace" || strIncludes s "defense" then "Industrials"
  else if strIncludes s "material" || strIncludes s "mining" ||
      strIncludes s "chemical" || strIncludes s "metals" then "Materials"
  else if strIncludes s "real estate" || strIncludes s "reit" then "Real Estate"
  else if strIncludes s "utilities" || strIncludes s "electric" ||
      strIncludes s "water" || strIncludes s "utility" then "Utilities"
  else if strIncludes s "communication" || strIncludes s "telecom" ||
      strIncludes s "media" || strIncludes s "entertainment" then "Communication Services"
  else if strIncludes s "auto" || strIncludes s "vehicle" ||
      strIncludes s "transportation" || strIncludes s "automotive" then "Automotive"
  else if strIncludes s "food" || strIncludes s "beverage" ||
      strIncludes s "agriculture" || strIncludes s "restaurant" then "Food & Beverage"
  else "Technology"

/-- Model of normalizeIndustry: the same scheme over the industry
rules with fallback Software. -/
def normalizeIndustry (industryName : String) : String :=
  let i := strLower industryName
  if strIncludes i "software" || strIncludes i "internet" ||
      strIncludes i "cloud" || strIncludes i "saas" then "Software"
  else if strIncludes i "semiconductor" || strIncludes i "chip" ||
      strIncludes i "electronics" || strIncludes i "hardware" then "Semiconductors"
  else if strIncludes i "auto" || strIncludes i "vehicle" ||
      strIncludes i "automotive" then "Automotive"
  else if strIncludes i "pharma" || strIncludes i "drug" ||
      strIncludes i "biotech" || strIncludes i "medical" then "Pharmaceuticals"
  else if strIncludes i "bank" || strIncludes i "financial" ||
      strIncludes i "lending" then "Banking"
  else if strIncludes i "retail" || strIncludes i "e-commerce" ||
      strIncludes i "store" then "Retail"
  else if strIncludes i "energy" || strIncludes i "oil" ||
      strIncludes i "renewable" then "Energy"
  else if strIncludes i "real estate" || strIncludes i "property" ||
      strIncludes i "reit" then "Real Estate"
  else if strIncludes i "aerospace" || strIncludes i "defense" ||
      strIncludes i "aviation" then "Aerospace & Defense"
  else if strIncludes i "telecom" || strIncludes i "wireless" ||
      strIncludes i "communication" then "Telecommunications"
  else "Software"

/-- Model of getManualSectorMapping: the hard-coded symbol table
of curated large-cap tickers. -/
def getManualSectorMapping (stockSymbol : String) : Option (String × String) :=
  match stockSymbol with
  | "AAPL" => some ("Technology", "Consumer Electronics")
  | "MSFT" => some ("Technology", "Software")
  | "AMZN" => some ("Consumer Goods", "E-commerce")
  | "GOOGL" => some ("Technology", "Internet Services")
  | "GOOG" => some ("Technology", "Internet Services")
  | "TSLA" => some ("Automotive", "Electric Vehicles")
  | "META" => some ("Communication Services", "Social Media")
  | "NVDA" => some ("Technology", "Semiconductors")
  | "AMD" => some ("Technology", "Semiconductors")
  | "INTC" => some ("Technology", "Semiconductors")
  | "JPM" => some ("Financial Services", "Banking")
  | "BAC" => some ("Financial Services", "Banking")
  | "JNJ" => some ("Healthcare", "Pharmaceuticals")
  | "PFE" => some ("Healthcare", "Pharmaceuticals")
  | "XOM" => some ("Energy", "Oil & Gas")
  | "CVX" => some ("Energy", "Oil & Gas")
  | "WMT" => some ("Consumer Goods", "Retail")
  | "HD" => some ("Consumer Goods", "Home Improvement")
  | "DIS" => some ("Communication Services", "Entertainment")
  | "NFLX" => some ("Communication Services", "Streaming")
  | "CRM" => some ("Technology", "Cloud Software")
  | "ORCL" => some ("Technology", "Enterprise Software")
  | _ => none

/-- The manual fallback step after normalization: when the
normalized sector and industry both equal the default labels, the
manual table entry for the symbol, when present, replaces them. -/
def applyManualFallback (symbol sector industry : String) : String × String :=
  if sector = "Technology" ∧ industry = "Software" then
    match getManualSectorMapping symbol with
    | some m => m
    | none => (sector, industry)
  else (sector, industry)

/-! ### Portfolio holding processing

Model of the per-item body of the fetchPortfolioData loop: the
destructuring of a stored portfolio entry, the quote and profile
fetch with its catch fallback, and the sector pipeline. -/

/-- A stored portfolio document entry: either a bare symbol string
from the legacy format, or a record whose numeric fields may be
absent.  The absent purchase date falls back to the current date. -/
inductive PortfolioEntry where
  | plain (symbol : String)
  | record (symbol : String) (shares avgPrice : Option ℚ) (purchaseDate : Option ℚ)
deriving DecidableEq

/-- The quote and profile response fields that fetchPortfolioData
reads. -/
structure ProfileResp where
  name : Option String
  gicsSector : Option String
  sector : Option String
  gicsIndustry : Option String
  gicsSubIndustry : Option String
  finnhubIndustry : Option String
  industry : Option String
deriving DecidableEq

/-- Outcome of the paired quote and profile fetch for one holding:
either some awaited call threw, or both resolved, with the quote
price field c possibly missing and the profile body possibly
falsy. -/
inductive QuoteFetch where
  | throws
  | responds (c : Option ℚ) (profile : Option ProfileResp)
deriving DecidableEq

/-- One enriched holding as pushed into processedHoldings. -/
structure PortfolioHolding where
  symbol : String
  companyName : String
  shares : ℚ
  avgPrice : ℚ
  currentPrice : ℚ
  totalValue : ℚ
  gainLoss : ℚ
  gainLossPercent : ℚ
  industry : String
  sector : String
  purchaseDate : ℚ
deriving DecidableEq

/-- Destructuring of one stored entry, lines 850 to 869 of the
source: a bare string becomes a zero-share watchlist entry, and
missing numeric fields default to 0 via the JavaScript or-zero
idiom. -/
def entryFields (e : PortfolioEntry) (nowDate : ℚ) : String × ℚ × ℚ × ℚ :=
  match e with
  | .plain s => (s, 0, 0, nowDate)
  | .record s sh ap pd => (s, sh.getD 0, ap.getD 0, pd.getD nowDate)

/-- The profile field filter of the possibleSectors and
possibleIndustries lists: keep a string that is truthy, truthy
after trim, and not the literal N/A. -/
def goodField (s : String) : Bool :=
  s != "" && s.trim != "" && s != "N/A"

/-- What one loop iteration contributes: a watchlist symbol, an
enriched holding, or nothing at all. -/
inductive ProcessResult where
  | watched (symbol : String)
  | held (h : PortfolioHolding)
  | dropped (symbol : String)
deriving DecidableEq

/-- Model of one iteration of the fetchPortfolioData loop over a
stored entry and the outcome of its quote and profile fetch.  A
zero-share entry goes to the watchlist.  A throwing fetch is
caught and pushes the fallback holding priced at avgPrice with
zero gain.  A resolved fetch pushes the computed holding only when
the quote price field c is truthy; otherwise the entry is silently
dropped. -/
def processEntry (e : PortfolioEntry) (fetch : QuoteFetch) (nowDate : ℚ) :
    ProcessResult :=
  let fields := entryFields e nowDate
  let symbol := fields.1
  let shares := fields.2.1
  let avgPrice := fields.2.2.1
  let purchaseDate := fields.2.2.2
  if shares = 0 then .watched symbol
  else
    match fetch with
    | .throws =>
      .held
        { symbol := symbol, companyName := symbol, shares := shares,
          avgPrice := avgPrice, currentPrice := avgPrice,
          totalValue := avgPrice * shares, gainLoss := 0,
          gainLossPercent := 0, industry := "Software",
          sector := "Technology", purchaseDate := purchaseDate }
    | .responds c profile =>
      match c with
      | none => .dropped symbol
      | some price =>
        if price = 0 then .dropped symbol
        else
          let currentPrice := price
          let totalValue := currentPrice * shares
          let totalCost := avgPrice * shares
          let gainLoss := totalValue - totalCost
          let gainLossPercent := if 0 < totalCost then gainLoss / totalCost * 100 else 0
          let nameSectorIndustry :=
            match profile with
            | none => (symbol, "Technology", "Software")
            | some p =>
              let companyName :=
                match p.name with
                | some n => if n = "" then symbol else n
                | none => symbol
              let possibleSectors :=
                ([p.gicsSector, p.sector, p.gicsIndustry, p.gicsSubIndustry].filterMap id).filter goodField
              let possibleIndustries :=
                ([p.finnhubIndustry, p.industry, p.gicsSubIndustry, p.gicsIndustry].filterMap id).filter goodField
              (companyName,
                normalizeSector (possibleSectors.headD "Technology"),
                normalizeIndustry (possibleIndustries.headD "Software"))
          let sectorIndustry :=
            applyManualFallback symbol nameSectorIndustry.2.1 nameSectorIndustry.2.2
          .held
            { symbol := symbol, companyName := nameSectorIndustry.1,
              shares := shares, avgPrice := avgPrice,
              currentPrice := currentPrice, totalValue := totalValue,
              gainLoss := gainLoss, gainLossPercent := gainLossPercent,
              industry := sectorIndustry.2, sector := sectorIndustry.1,
              purchaseDate := purchaseDate }

/-- The processedHoldings list that the loop accumulates over the
stored entries paired with their fetch outcomes; it becomes the
holdings field of the PortfolioSummary. -/
def processedHoldings (items : List (PortfolioEntry × QuoteFetch)) (nowDate : ℚ) :
    List PortfolioHolding :=
  items.filterMap fun ef =>
    match processEntry ef.1 ef.2 nowDate with
    | .held h => some h
    | _ => none

/-! ### XIRR solver

Model of calculateXIRR.  The transcendental power function that
the source calls as Math.pow is passed in as the abstract pw
parameter; everything else is exact rational arithmetic.  The
Newton-Raphson loop carries its remaining iteration budget as
fuel, starting at 100. -/

/-- The Newton-Raphson loop of calculateXIRR: at each step the net
present value and its derivative are folded over the cash flows
zipped with their day offsets; the loop converges when the
absolute net present value drops below the tolerance, aborts on a
flat derivative or on an iterate leaving the interval from -0.99
to 10, and gives up when the iteration budget is exhausted. -/
def newtonIterate (pw : ℚ → ℚ → ℚ) (cashFlows daysDiff : List ℚ) :
    ℕ → ℚ → Option ℚ
  | 0, _ => none
  | fuel + 1, rate =>
    let terms := cashFlows.zip daysDiff
    let npv := terms.foldl
      (fun acc cd => acc + cd.1 / pw (1 + rate) (cd.2 / 365.25)) 0
    let dnpv := terms.foldl
      (fun acc cd => acc - cd.1 * (cd.2 / 365.25) / (pw (1 + rate) (cd.2 / 365.25)) ^ 2) 0
    if |npv| < 1 / 1000000 then some (rate * 100)
    else if |dnpv| < 1 / 1000000 then none
    else
      let newRate := rate - npv / dnpv
      if newRate < -(99 / 100) ∨ 10 < newRate then none
      else newtonIterate pw cashFlows daysDiff fuel newRate

/-- Model of calculateXIRR: reject mismatched or short inputs,
reject cash flows with no positive or no negative entry, convert
the dates to day offsets from the first date, and run the
Newton-Raphson loop from the initial guess of 0.10 for at most 100
iterations, returning the rate as a percentage on convergence and
none otherwise.  The function never throws: every outcome is a
value of the Option type. -/
def calculateXIRR (pw : ℚ → ℚ → ℚ) (cashFlows dates : List ℚ) : Option ℚ :=
  if cashFlows.length ≠ dates.length ∨ cashFlows.length < 2 then none
  else
    let positiveFlows := (cashFlows.filter fun cf => decide (0 < cf)).length
    let negativeFlows := (cashFlows.filter fun cf => decide (cf < 0)).length
    if positiveFlows = 0 ∨ negativeFlows = 0 then none
    else
      let baseDateMs := dates.headD 0
      let daysDiff := dates.map fun d => (d - baseDateMs) / 86400000
      newtonIterate pw cashFlows daysDiff 100 (1 / 10)

/-! ### Helper lemmas -/

/-- Appending under a conditional distributes over the base list. -/
theorem ite_append_push (c : Bool) (l : List String) (a : String) :
    (if c = true then l ++ [a] else l) = l ++ (if c = true then [a] else []) := by
  cases c <;> simp

/-- A three-rung rubric chain with top rung 3 is bounded by 3. -/
theorem score3_le (c1 c2 c3 : Prop) [Decidable c1] [Decidable c2] [Decidable c3] :
    (if c1 then (3 : ℕ) else if c2 then 2 else if c3 then 1 else 0) ≤ 3 := by
  split_ifs <;> omega

/-- The debt rubric chain with top rung 2 is bounded by 2. -/
theorem score2_le (c0 c1 c2 : Prop) [Decidable c0] [Decidable c1] [Decidable c2] :
    (if c0 then (0 : ℕ) else if c1 then 2 else if c2 then 1 else 0) ≤ 2 := by
  split_ifs <;> omega

/-- The score field of getRiskLevel is the unclamped rubric sum:
the final bucketing branches only relabel it. -/
theorem getRiskLevel_score_eq (beta peRatio marketCap : ℚ) (debtToEquity : Option ℚ) :
    (getRiskLevel beta peRatio marketCap debtToEquity).score =
      (if 1.5 < beta then 3 else if 1.2 < beta then 2 else if 1 < beta then 1 else 0)
      + (if 30 < peRatio then 3 else if 20 < peRatio then 2 else if 15 < peRatio then 1 else 0)
      + (if marketCap < 2 then 3 else if marketCap < 10 then 2 else if marketCap < 50 then 1 else 0)
      + (match debtToEquity with
          | none => 0
          | some d => if d = 0 then 0 else if 1 < d then 2 else if 0.5 < d then 1 else 0) := by
  unfold getRiskLevel
  rw [apply_ite RiskAssessment.score, apply_ite RiskAssessment.score]
  dsimp only
  rw [ite_self, ite_self]

/-! ### Claim theorems -/

/-- C9: sector and industry normalization uses ordered
case-insensitive substring rules with first match winning and the
fallbacks Technology and Software: normalizeSector maps
Information Technology to Technology and the empty string to the
Technology fallback, and when the normalized sector and industry
both equal the fallback labels the manual symbol table overrides
TSLA to Automotive and Electric Vehicles. -/
theorem sector_normalization_cases :
    normalizeSector "Information Technology" = "Technology" ∧
    normalizeSector "" = "Technology" ∧
    applyManualFallback "TSLA" "Technology" "Software" =
      ("Automotive", "Electric Vehicles") :=
  ⟨by decide, by decide, by decide⟩

/-- C2 counterexample: at beta 2, price to earnings 35, market cap
1 billion and debt to equity 2, getRiskLevel returns the unclamped
score 11, outside the declared range 0 to 10. -/
theorem riskScore_exceeds_ten :
    (getRiskLevel 2 35 1 (some 2)).score = 11 ∧
    ¬ (getRiskLevel 2 35 1 (some 2)).score ≤ 10 := by
  norm_num [getRiskLevel]

/-- C2 amended: the risk score of getRiskLevel lies between 0 and
11 inclusive for every input; the source never clamps it, and the
addends are bounded by 3, 3, 3 and 2. -/
theorem riskScore_le_eleven (beta peRatio marketCap : ℚ) (debtToEquity : Option ℚ) :
    (getRiskLevel beta peRatio marketCap debtToEquity).score ≤ 11 := by
  rw [getRiskLevel_score_eq]
  have h1 := score3_le ((1.5 : ℚ) < beta) ((1.2 : ℚ) < beta) ((1 : ℚ) < beta)
  have h2 := score3_le ((30 : ℚ) < peRatio) ((20 : ℚ) < peRatio) ((15 : ℚ) < peRatio)
  have h3 := score3_le (marketCap < (2 : ℚ)) (marketCap < (10 : ℚ)) (marketCap < (50 : ℚ))
  rcases debtToEquity with _ | d
  · dsimp only
    omega
  · dsimp only
    have h4 := score2_le (d = (0 : ℚ)) ((1 : ℚ) < d) ((0.5 : ℚ) < d)
    omega

/-- C3 counterexample: on a StockDetails record whose only present
field is changePercent with value -6, the negative momentum rule
triggers, moving shortTerm from 5 to 3, yet the returned reasons
list is empty: a triggering adjustment rule that appends no
reason. -/
theorem negativeMomentum_no_reason :
    (generateInvestmentRecommendation
      ⟨none, none, none, none, none, some (-6), none, none, none, none⟩).shortTerm = 3 ∧
    (generateInvestmentRecommendation
      ⟨none, none, none, none, none, some (-6), none, none, none, none⟩).reasons = [] := by
  norm_num [generateInvestmentRecommendation, truthyAnd, min_def, max_def]

/-- C3 amended: the reasons list returned by
generateInvestmentRecommendation equals the first five of the
reason strings collected in trigger order, where every triggering
adjustment rule contributes its reason string except the negative
momentum penalty, which contributes nothing, and the dividend
rule, which contributes its string only when the dividend yield
exceeds 3. -/
theorem recommendation_reasons_take5 (sd : StockDetails) :
    (generateInvestmentRecommendation sd).reasons = (reasonsTriggered sd).take 5 := by
  rcases hd : sd.dividend with _ | d
  · simp only [generateInvestmentRecommendation, reasonsTriggered, hd, truthyAnd]
    conv_lhs => rw [ite_append_push, ite_append_push, ite_append_push, ite_append_push,
      ite_append_push, ite_append_push, ite_append_push, ite_append_push]
    simp [List.append_assoc]
  · cases h1 : d != 0 <;> cases h2 : decide (3 < d) <;>
      simp only [generateInvestmentRecommendation, reasonsTriggered, hd, truthyAnd, h1, h2,
        Bool.false_and, Bool.true_and, Bool.and_false, Bool.and_true] <;>
      simp only [if_true, if_false, Bool.false_eq_true, ite_false, ite_true] <;>
      (conv_lhs => rw [ite_append_push, ite_append_push, ite_append_push, ite_append_push,
        ite_append_push, ite_append_push, ite_append_push, ite_append_push]) <;>
      simp [List.append_assoc]

/-! ### Cache and rate limiter lemmas -/

/-- Reading the cache never touches the request log. -/
theorem cacheGet_requestLog (k : String) (now : ℤ) (st : APICacheState α) :
    ((cacheGet k now st).2).requestLog = st.requestLog := by
  unfold cacheGet
  cases st.cache k
  · rfl
  · dsimp only
    split_ifs <;> rfl

/-- Writing the cache never touches the request log. -/
theorem cacheSet_requestLog (k : String) (v : α) (ttl now : ℤ) (st : APICacheState α) :
    (cacheSet k v ttl now st).requestLog = st.requestLog := rfl

/-- The request log after a fetchWithRetry call is exactly the log
left by the initial rate-window check: the cache read, the cache
store and the retry loop never touch it. -/
theorem fetchWithRetry_requestLog (endpoint url : String) (maxRetries : ℕ)
    (ttl : Option ℤ) (oracle : ℕ → FetchOutcome α) (now : ℤ) (st : APICacheState α) :
    (fetchWithRetry endpoint url maxRetries ttl oracle now st).state.requestLog =
      ((isRateLimited endpoint now st).2).requestLog := by
  unfold fetchWithRetry
  rcases hrl : isRateLimited endpoint now st with ⟨b, st1⟩
  have h1 : ((cacheGet url now st1).2).requestLog = st1.requestLog :=
    cacheGet_requestLog url now st1
  cases b
  · dsimp only
    rcases hcg : cacheGet url now st1 with ⟨co, st2⟩
    rw [hcg] at h1
    cases co
    · dsimp only
      rcases retryLoop oracle maxRetries 0 none [] with ⟨r, delays⟩
      cases r with
      | ok d =>
        dsimp only
        rw [cacheSet_requestLog]
        exact h1
      | error e =>
        dsimp only
        exact h1
    · dsimp only
      exact h1
  · rfl

/-! ### Status classification lemmas -/

set_option maxRecDepth 10000 in
/-- A 5xx status is thrown as a ServerError. -/
theorem classifyStatus_5xx : ∀ s : ℕ, s < 600 → 500 ≤ s →
    classifyStatus s = ApiError.serverError s := by decide

set_option maxRecDepth 10000 in
/-- A non-429 4xx status is thrown as the generic HTTP error. -/
theorem classifyStatus_4xx : ∀ s : ℕ, s < 500 → 400 ≤ s → s ≠ 429 →
    classifyStatus s = ApiError.httpError s := by decide

set_option maxHeartbeats 2000000 in
set_option maxRecDepth 10000 in
/-- A ServerError message matches neither break substring, so the
loop keeps retrying on it. -/
theorem breaksRetry_5xx : ∀ s : ℕ, s < 600 → 500 ≤ s →
    breaksRetry (ApiError.serverError s) = false := by decide

set_option maxHeartbeats 2000000 in
set_option maxRecDepth 10000 in
/-- A non-429 4xx HTTP error message contains the substring
HTTP error: 4, so the loop stops retrying. -/
theorem breaksRetry_4xx : ∀ s : ℕ, s < 500 → 400 ≤ s → s ≠ 429 →
    breaksRetry (ApiError.httpError s) = true := by decide

/-- A generic transport failure message matches neither break
substring, so the loop keeps retrying on it. -/
theorem breaksRetry_transport : breaksRetry ApiError.transportFailed = false := by decide

/-- On the empty starting state the rate window admits the call
and the cache misses, so the call runs the retry loop: its value
or error and its delay list are those of the loop. -/
theorem fetchWithRetry_emptyState (endpoint url : String) (maxRetries : ℕ)
    (ttl : Option ℤ) (oracle : ℕ → FetchOutcome α) (now : ℤ)
    (r : Except ApiError α) (delays : List ℕ)
    (h : retryLoop oracle maxRetries 0 none [] = (r, delays)) :
    (fetchWithRetry endpoint url maxRetries ttl oracle now (emptyState α)).result = r ∧
    (fetchWithRetry endpoint url maxRetries ttl oracle now (emptyState α)).delays = delays := by
  unfold fetchWithRetry isRateLimited cacheGet emptyState
  dsimp only
  rw [h]
  cases r <;> exact ⟨rfl, rfl⟩

/-! ### Retry loop stepping lemmas -/

/-- A successful attempt returns its parsed body at once. -/
theorem retryLoop_success (oracle : ℕ → FetchOutcome α) (fuel attempt : ℕ)
    (lastError : Option ApiError) (delays : List ℕ) (v : α)
    (h : oracle attempt = FetchOutcome.success v) :
    retryLoop oracle (fuel + 1) attempt lastError delays = (Except.ok v, delays) := by
  unfold retryLoop
  rw [h]

/-- An attempt whose thrown error matches a break substring stops
the loop at once with that error and no further delay. -/
theorem retryLoop_break (oracle : ℕ → FetchOutcome α) (fuel attempt : ℕ)
    (lastError : Option ApiError) (delays : List ℕ) (s : ℕ) (e : ApiError)
    (h : oracle attempt = FetchOutcome.httpStatus s)
    (he : classifyStatus s = e) (hb : breaksRetry e = true) :
    retryLoop oracle (fuel + 1) attempt lastError delays = (Except.error e, delays) := by
  unfold retryLoop
  rw [h]
  dsimp only
  rw [he, hb]
  rw [if_pos rfl]

/-- A retryable HTTP error with at least one attempt left sleeps 2
to the power attempt seconds and moves to the next attempt. -/
theorem retryLoop_retry (oracle : ℕ → FetchOutcome α) (fuel attempt : ℕ)
    (lastError : Option ApiError) (delays : List ℕ) (s : ℕ) (e : ApiError)
    (h : oracle attempt = FetchOutcome.httpStatus s)
    (he : classifyStatus s = e) (hb : breaksRetry e = false) :
    retryLoop oracle (fuel + 2) attempt lastError delays =
      retryLoop oracle (fuel + 1) (attempt + 1) (some e) (delays ++ [2 ^ attempt]) := by
  unfold retryLoop
  rw [h]
  dsimp only
  rw [he, hb]
  rw [if_neg (by simp)]
  rfl

/-- A retryable HTTP error on the final attempt surfaces that
error with no further delay. -/
theorem retryLoop_last_error (oracle : ℕ → FetchOutcome α) (attempt : ℕ)
    (lastError : Option ApiError) (delays : List ℕ) (s : ℕ) (e : ApiError)
    (h : oracle attempt = FetchOutcome.httpStatus s)
    (he : classifyStatus s = e) (hb : breaksRetry e = false) :
    retryLoop oracle 1 attempt lastError delays = (Except.error e, delays) := by
  unfold retryLoop
  rw [h]
  dsimp only
  rw [he, hb]
  rw [if_neg (by simp)]

/-- A transport failure with at least one attempt left sleeps and
moves to the next attempt. -/
theorem retryLoop_retry_transport (oracle : ℕ → FetchOutcome α) (fuel attempt : ℕ)
    (lastError : Option ApiError) (delays : List ℕ)
    (h : oracle attempt = FetchOutcome.transportFailure) :
    retryLoop oracle (fuel + 2) attempt lastError delays =
      retryLoop oracle (fuel + 1) (attempt + 1) (some ApiError.transportFailed)
        (delays ++ [2 ^ attempt]) := by
  unfold retryLoop
  rw [h]
  dsimp only
  rw [breaksRetry_transport]
  rw [if_neg (by simp)]
  rfl

/-! ### More claim theorems -/

/-- C8: cache round-trip: after set with a given ttl, get returns
the stored value while less than ttl has elapsed, and reports the
key absent once more than ttl has elapsed, lazily deleting the
expired entry on that read. -/
theorem cache_roundtrip (α : Type) (k : String) (v : α) (ttl now nowRead : ℤ)
    (st : APICacheState α) :
    (nowRead - now < ttl →
      (cacheGet k nowRead (cacheSet k v ttl now st)).1 = some v) ∧
    (ttl < nowRead - now →
      (cacheGet k nowRead (cacheSet k v ttl now st)).1 = none ∧
      ((cacheGet k nowRead (cacheSet k v ttl now st)).2).cache k = none) := by
  unfold cacheGet cacheSet
  dsimp only
  rw [if_pos rfl]
  dsimp only
  constructor
  · intro h
    rw [if_neg (by omega)]
  · intro h
    rw [if_pos h]
    refine ⟨rfl, ?_⟩
    dsimp only
    rw [if_pos rfl]

/-- C8 witness: storing 1 under k at time 0 with ttl 5, a read at
time 3 returns 1 and a read at time 7 reports the key absent and
evicts it. -/
theorem cache_roundtrip_witness :
    (cacheGet "k" 3 (cacheSet "k" 1 5 0 (emptyState ℕ))).1 = some 1 ∧
    (cacheGet "k" 7 (cacheSet "k" 1 5 0 (emptyState ℕ))).1 = none ∧
    ((cacheGet "k" 7 (cacheSet "k" 1 5 0 (emptyState ℕ))).2).cache "k" = none :=
  ⟨(cache_roundtrip ℕ "k" 1 5 0 3 (emptyState ℕ)).1 (by decide),
   ((cache_roundtrip ℕ "k" 1 5 0 7 (emptyState ℕ)).2 (by decide)).1,
   ((cache_roundtrip ℕ "k" 1 5 0 7 (emptyState ℕ)).2 (by decide)).2⟩

/-- C6: when 30 timestamps already lie inside the trailing
60-second window of an endpoint, a fetchWithRetry call for it
fails with the rate-limited error before any cache read or
network attempt, leaving the whole state unchanged and sleeping no
delay, whatever the network would have answered; and once 60
seconds have elapsed past every recorded timestamp the window
check admits calls to that endpoint again. -/
theorem rateLimit_blocks_and_readmits (α : Type) (endpoint url : String)
    (maxRetries : ℕ) (ttl : Option ℤ) (oracle : ℕ → FetchOutcome α) (now : ℤ)
    (st : APICacheState α) :
    (30 ≤ ((st.requestLog endpoint).filter (fun ts => now - ts < 60000)).length →
      fetchWithRetry endpoint url maxRetries ttl oracle now st =
        ⟨Except.error ApiError.rateLimitedWindow, st, []⟩) ∧
    ((∀ ts ∈ st.requestLog endpoint, 60000 ≤ now - ts) →
      (isRateLimited endpoint now st).1 = false) := by
  constructor
  · intro h
    have hrl : isRateLimited endpoint now st = (true, st) := by
      unfold isRateLimited
      dsimp only
      rw [if_pos h]
    unfold fetchWithRetry
    rw [hrl]
  · intro h
    have hfil : (st.requestLog endpoint).filter (fun ts => now - ts < 60000) = [] := by
      rw [List.filter_eq_nil_iff]
      intro a ha
      simp only [decide_eq_true_eq]
      have := h a ha
      omega
    unfold isRateLimited
    dsimp only
    rw [hfil]
    rw [if_neg (by simp)]

/-- C6 witness: with 30 timestamps at time 0 recorded for the
endpoint, a call at time 1000 fails rate-limited with the state
unchanged; at time 60000 the window check admits the endpoint
again. -/
theorem rateLimit_blocks_and_readmits_witness :
    fetchWithRetry "/quote" "u" 3 none (fun _ => FetchOutcome.success (0 : ℕ)) 1000
        ⟨fun _ => none, fun _ => List.replicate 30 0⟩ =
      ⟨Except.error ApiError.rateLimitedWindow,
        ⟨fun _ => none, fun _ => List.replicate 30 0⟩, []⟩ ∧
    (isRateLimited "/quote" 60000
        (⟨fun _ => none, fun _ => List.replicate 30 0⟩ : APICacheState ℕ)).1 = false :=
  ⟨(rateLimit_blocks_and_readmits ℕ "/quote" "u" 3 none
      (fun _ => FetchOutcome.success 0) 1000
      ⟨fun _ => none, fun _ => List.replicate 30 0⟩).1 (by decide),
   (rateLimit_blocks_and_readmits ℕ "/quote" "u" 3 none
      (fun _ => FetchOutcome.success 0) 60000
      ⟨fun _ => none, fun _ => List.replicate 30 0⟩).2 (by decide)⟩

/-- C10: a fetchWithRetry call rejected by the rate window records
no new timestamp: the request log is left exactly as it was; an
admitted call, whatever its later path, records exactly one new
timestamp for its endpoint, appended to the pruned window. -/
theorem rateLimit_slot_accounting (α : Type) (endpoint url : String)
    (maxRetries : ℕ) (ttl : Option ℤ) (oracle : ℕ → FetchOutcome α) (now : ℤ)
    (st : APICacheState α) :
    (30 ≤ ((st.requestLog endpoint).filter (fun ts => now - ts < 60000)).length →
      (fetchWithRetry endpoint url maxRetries ttl oracle now st).state.requestLog =
        st.requestLog) ∧
    (((st.requestLog endpoint).filter (fun ts => now - ts < 60000)).length < 30 →
      (fetchWithRetry endpoint url maxRetries ttl oracle now st).state.requestLog endpoint =
        (st.requestLog endpoint).filter (fun ts => now - ts < 60000) ++ [now]) := by
  constructor
  · intro h
    rw [fetchWithRetry_requestLog]
    have hrl : isRateLimited endpoint now st = (true, st) := by
      unfold isRateLimited
      dsimp only
      rw [if_pos h]
    rw [hrl]
  · intro h
    rw [fetchWithRetry_requestLog]
    have hrl : isRateLimited endpoint now st =
        (false,
          { st with
            requestLog := fun e =>
              if e = endpoint then
                (st.requestLog endpoint).filter (fun ts => now - ts < 60000) ++ [now]
              else st.requestLog e }) := by
      unfold isRateLimited
      dsimp only
      rw [if_neg (by omega)]
    rw [hrl]
    dsimp only
    rw [if_pos rfl]

/-- C10 witness: a rejected call at a full window of 30 leaves the
log untouched; an admitted call at a window of 29 appends exactly
its own timestamp. -/
theorem rateLimit_slot_accounting_witness :
    (fetchWithRetry "/q" "u" 3 none (fun _ => FetchOutcome.success (0 : ℕ)) 5
        ⟨fun _ => none, fun _ => List.replicate 30 0⟩).state.requestLog =
      (⟨fun _ => none, fun _ => List.replicate 30 0⟩ : APICacheState ℕ).requestLog ∧
    (fetchWithRetry "/q" "u" 3 none (fun _ => FetchOutcome.success (0 : ℕ)) 5
        ⟨fun _ => none, fun _ => List.replicate 29 0⟩).state.requestLog "/q" =
      (List.replicate 29 (0 : ℤ)).filter (fun ts => (5 : ℤ) - ts < 60000) ++ [5] :=
  ⟨(rateLimit_slot_accounting ℕ "/q" "u" 3 none (fun _ => FetchOutcome.success 0) 5
      ⟨fun _ => none, fun _ => List.replicate 30 0⟩).1 (by decide),
   (rateLimit_slot_accounting ℕ "/q" "u" 3 none (fun _ => FetchOutcome.success 0) 5
      ⟨fun _ => none, fun _ => List.replicate 29 0⟩).2 (by decide)⟩

/-- C7: starting from the empty state, fetchWithRetry retries only
ServerError statuses and generic transport failures with backoff 2
to the power attempt seconds between attempts: ServerError on
attempts 0 and 1 then success on attempt 2 with maxRetries 3
yields the value after exactly the delays 1 and 2; a non-429 4xx
ClientError on attempt 0 fails at once with that error and no
delay for every positive maxRetries; three ServerError attempts
with maxRetries 3 surface the last error after the delays 1 and 2;
a transport failure on attempt 0 is retried with a delay of 1. -/
theorem retry_backoff_behavior (α : Type) (endpoint url : String) (ttl : Option ℤ)
    (now : ℤ) :
    (∀ (oracle : ℕ → FetchOutcome α) (v : α) (s0 s1 : ℕ),
      500 ≤ s0 → s0 ≤ 599 → 500 ≤ s1 → s1 ≤ 599 →
      oracle 0 = FetchOutcome.httpStatus s0 →
      oracle 1 = FetchOutcome.httpStatus s1 →
      oracle 2 = FetchOutcome.success v →
      (fetchWithRetry endpoint url 3 ttl oracle now (emptyState α)).result =
        Except.ok v ∧
      (fetchWithRetry endpoint url 3 ttl oracle now (emptyState α)).delays = [1, 2]) ∧
    (∀ (oracle : ℕ → FetchOutcome α) (s maxRetries : ℕ),
      400 ≤ s → s ≤ 499 → s ≠ 429 → 1 ≤ maxRetries →
      oracle 0 = FetchOutcome.httpStatus s →
      (fetchWithRetry endpoint url maxRetries ttl oracle now (emptyState α)).result =
        Except.error (ApiError.httpError s) ∧
      (fetchWithRetry endpoint url maxRetries ttl oracle now (emptyState α)).delays = []) ∧
    (∀ (oracle : ℕ → FetchOutcome α) (s0 s1 s2 : ℕ),
      500 ≤ s0 → s0 ≤ 599 → 500 ≤ s1 → s1 ≤ 599 → 500 ≤ s2 → s2 ≤ 599 →
      oracle 0 = FetchOutcome.httpStatus s0 →
      oracle 1 = FetchOutcome.httpStatus s1 →
      oracle 2 = FetchOutcome.httpStatus s2 →
      (fetchWithRetry endpoint url 3 ttl oracle now (emptyState α)).result =
        Except.error (ApiError.serverError s2) ∧
      (fetchWithRetry endpoint url 3 ttl oracle now (emptyState α)).delays = [1, 2]) ∧
    (∀ (oracle : ℕ → FetchOutcome α) (v : α),
      oracle 0 = FetchOutcome.transportFailure →
      oracle 1 = FetchOutcome.success v →
      (fetchWithRetry endpoint url 3 ttl oracle now (emptyState α)).result =
        Except.ok v ∧
      (fetchWithRetry endpoint url 3 ttl oracle now (emptyState α)).delays = [1]) := by
  refine ⟨?_, ?_, ?_, ?_⟩
  · intro oracle v s0 s1 hs0 hs0u hs1 hs1u h0 h1 h2
    apply fetchWithRetry_emptyState
    rw [show (3 : ℕ) = 1 + 2 from rfl,
      retryLoop_retry oracle 1 0 none [] s0 (ApiError.serverError s0) h0
        (classifyStatus_5xx s0 (by omega) hs0) (breaksRetry_5xx s0 (by omega) hs0),
      show (1 + 1 : ℕ) = 0 + 2 from rfl,
      retryLoop_retry oracle 0 1 _ _ s1 (ApiError.serverError s1) h1
        (classifyStatus_5xx s1 (by omega) hs1) (breaksRetry_5xx s1 (by omega) hs1),
      retryLoop_success oracle 0 2 _ _ v h2]
    norm_num
  · intro oracle s maxRetries hs hsu hs429 hmr h0
    obtain ⟨k, rfl⟩ : ∃ k, maxRetries = k + 1 := ⟨maxRetries - 1, by omega⟩
    apply fetchWithRetry_emptyState
    rw [retryLoop_break oracle k 0 none [] s (ApiError.httpError s) h0
      (classifyStatus_4xx s (by omega) hs hs429)
      (breaksRetry_4xx s (by omega) hs hs429)]
  · intro oracle s0 s1 s2 hs0 hs0u hs1 hs1u hs2 hs2u h0 h1 h2
    apply fetchWithRetry_emptyState
    rw [show (3 : ℕ) = 1 + 2 from rfl,
      retryLoop_retry oracle 1 0 none [] s0 (ApiError.serverError s0) h0
        (classifyStatus_5xx s0 (by omega) hs0) (breaksRetry_5xx s0 (by omega) hs0),
      show (1 + 1 : ℕ) = 0 + 2 from rfl,
      retryLoop_retry oracle 0 1 _ _ s1 (ApiError.serverError s1) h1
        (classifyStatus_5xx s1 (by omega) hs1) (breaksRetry_5xx s1 (by omega) hs1),
      retryLoop_last_error oracle 2 _ _ s2 (ApiError.serverError s2) h2
        (classifyStatus_5xx s2 (by omega) hs2) (breaksRetry_5xx s2 (by omega) hs2)]
    norm_num
  · intro oracle v h0 h1
    apply fetchWithRetry_emptyState
    rw [show (3 : ℕ) = 1 + 2 from rfl,
      retryLoop_retry_transport oracle 1 0 none [] h0,
      retryLoop_success oracle 1 1 _ _ v h1]
    norm_num

/-- C7 witness: concrete runs of the four retry behaviors with
statuses 500, 502, 503 and 404. -/
theorem retry_backoff_behavior_witness :
    ((fetchWithRetry "/q" "u" 3 none
        (fun n => if n = 0 then FetchOutcome.httpStatus 500
          else if n = 1 then FetchOutcome.httpStatus 502
          else FetchOutcome.success (37 : ℕ)) 0 (emptyState ℕ)).result =
      Except.ok 37 ∧
     (fetchWithRetry "/q" "u" 3 none
        (fun n => if n = 0 then FetchOutcome.httpStatus 500
          else if n = 1 then FetchOutcome.httpStatus 502
          else FetchOutcome.success (37 : ℕ)) 0 (emptyState ℕ)).delays = [1, 2]) ∧
    ((fetchWithRetry "/q" "u" 3 none
        (fun _ => FetchOutcome.httpStatus 404 : ℕ → FetchOutcome ℕ) 0
        (emptyState ℕ)).result = Except.error (ApiError.httpError 404) ∧
     (fetchWithRetry "/q" "u" 3 none
        (fun _ => FetchOutcome.httpStatus 404 : ℕ → FetchOutcome ℕ) 0
        (emptyState ℕ)).delays = []) ∧
    ((fetchWithRetry "/q" "u" 3 none
        (fun _ => FetchOutcome.httpStatus 503 : ℕ → FetchOutcome ℕ) 0
        (emptyState ℕ)).result = Except.error (ApiError.serverError 503) ∧
     (fetchWithRetry "/q" "u" 3 none
        (fun _ => FetchOutcome.httpStatus 503 : ℕ → FetchOutcome ℕ) 0
        (emptyState ℕ)).delays = [1, 2]) :=
  ⟨(retry_backoff_behavior ℕ "/q" "u" none 0).1
      (fun n => if n = 0 then FetchOutcome.httpStatus 500
        else if n = 1 then FetchOutcome.httpStatus 502
        else FetchOutcome.success 37) 37 500 502
      (by decide) (by decide) (by decide) (by decide) rfl rfl rfl,
   (retry_backoff_behavior ℕ "/q" "u" none 0).2.1
      (fun _ => FetchOutcome.httpStatus 404) 404 3
      (by decide) (by decide) (by decide) (by decide) rfl,
   (retry_backoff_behavior ℕ "/q" "u" none 0).2.2.1
      (fun _ => FetchOutcome.httpStatus 503) 503 503 503
      (by decide) (by decide) (by decide) (by decide) (by decide) (by decide)
      rfl rfl rfl⟩

/-- C4: the XIRR solver rejects with none, never throwing, when
the cash flow and date lists disagree in length or hold fewer than
two flows, and when the cash flows carry no positive entry or no
negative entry; and for every input it returns either none or some
finite rational, the iteration aborting with none on a flat
derivative, on an iterate leaving the interval from -0.99 to 10,
or on exhausting its 100 iterations. -/
theorem calculateXIRR_guards (pw : ℚ → ℚ → ℚ) (cashFlows dates : List ℚ) :
    ((cashFlows.length ≠ dates.length ∨ cashFlows.length < 2) →
      calculateXIRR pw cashFlows dates = none) ∧
    ((∀ cf ∈ cashFlows, cf ≤ 0) → calculateXIRR pw cashFlows dates = none) ∧
    ((∀ cf ∈ cashFlows, 0 ≤ cf) → calculateXIRR pw cashFlows dates = none) ∧
    (calculateXIRR pw cashFlows dates = none ∨
      ∃ r : ℚ, calculateXIRR pw cashFlows dates = some r) := by
  refine ⟨?_, ?_, ?_, ?_⟩
  · intro h
    unfold calculateXIRR
    rw [if_pos h]
  · intro h
    unfold calculateXIRR
    by_cases h1 : cashFlows.length ≠ dates.length ∨ cashFlows.length < 2
    · rw [if_pos h1]
    · rw [if_neg h1]
      dsimp only
      have hfil : cashFlows.filter (fun cf => decide (0 < cf)) = [] := by
        rw [List.filter_eq_nil_iff]
        intro a ha
        simp only [decide_eq_true_eq]
        exact not_lt.mpr (h a ha)
      rw [hfil]
      simp
  · intro h
    unfold calculateXIRR
    by_cases h1 : cashFlows.length ≠ dates.length ∨ cashFlows.length < 2
    · rw [if_pos h1]
    · rw [if_neg h1]
      dsimp only
      have hfil : cashFlows.filter (fun cf => decide (cf < 0)) = [] := by
        rw [List.filter_eq_nil_iff]
        intro a ha
        simp only [decide_eq_true_eq]
        exact not_lt.mpr (h a ha)
      rw [hfil]
      simp
  · rcases h : calculateXIRR pw cashFlows dates with _ | r
    · exact Or.inl rfl
    · exact Or.inr ⟨r, rfl⟩

/-- C4 witness: a single flow is rejected, and two dates with
all-positive flows are rejected, under a trivial power oracle. -/
theorem calculateXIRR_guards_witness :
    calculateXIRR (fun a _ => a) [1] [0] = none ∧
    calculateXIRR (fun a _ => a) [1, 2] [0, 365] = none :=
  ⟨(calculateXIRR_guards (fun a _ => a) [1] [0]).1 (Or.inr (by decide)),
   (calculateXIRR_guards (fun a _ => a) [1, 2] [0, 365]).2.2.1 (by decide)⟩

/-- C1 amended: a value-bearing holding whose quote and profile
fetch throws is caught and retained in processedHoldings with
currentPrice equal to avgPrice and zero gain and loss; but a
holding whose fetch resolves with a missing or zero quote price is
silently dropped, so such holdings are the one case in which a
position with positive shares is omitted from the summary. -/
theorem fetchFailure_holding_retained (items : List (PortfolioEntry × QuoteFetch))
    (e : PortfolioEntry) (nowDate : ℚ)
    (hmem : (e, QuoteFetch.throws) ∈ items)
    (hshares : 0 < (entryFields e nowDate).2.1) :
    ∃ h ∈ processedHoldings items nowDate,
      h.symbol = (entryFields e nowDate).1 ∧
      h.currentPrice = (entryFields e nowDate).2.2.1 ∧
      h.gainLoss = 0 ∧ h.gainLossPercent = 0 := by
  have hne : ¬ (entryFields e nowDate).2.1 = 0 := ne_of_gt hshares
  have hpe : processEntry e QuoteFetch.throws nowDate =
      ProcessResult.held
        { symbol := (entryFields e nowDate).1,
          companyName := (entryFields e nowDate).1,
          shares := (entryFields e nowDate).2.1,
          avgPrice := (entryFields e nowDate).2.2.1,
          currentPrice := (entryFields e nowDate).2.2.1,
          totalValue := (entryFields e nowDate).2.2.1 * (entryFields e nowDate).2.1,
          gainLoss := 0, gainLossPercent := 0,
          industry := "Software", sector := "Technology",
          purchaseDate := (entryFields e nowDate).2.2.2 } := by
    unfold processEntry
    dsimp only
    rw [if_neg hne]
  refine
    ⟨{ symbol := (entryFields e nowDate).1,
       companyName := (entryFields e nowDate).1,
       shares := (entryFields e nowDate).2.1,
       avgPrice := (entryFields e nowDate).2.2.1,
       currentPrice := (entryFields e nowDate).2.2.1,
       totalValue := (entryFields e nowDate).2.2.1 * (entryFields e nowDate).2.1,
       gainLoss := 0, gainLossPercent := 0,
       industry := "Software", sector := "Technology",
       purchaseDate := (entryFields e nowDate).2.2.2 },
     List.mem_filterMap.mpr ⟨(e, QuoteFetch.throws), hmem, ?_⟩, rfl, rfl, rfl, rfl⟩
  dsimp only
  rw [hpe]

/-- C1 witness: a two-share holding with a throwing fetch shows up
in processedHoldings priced at its average price with zero gain. -/
theorem fetchFailure_holding_retained_witness :
    ∃ h ∈ processedHoldings
        [(PortfolioEntry.record "AAPL" (some 2) (some 150) (some 0),
          QuoteFetch.throws)] 0,
      h.symbol = (entryFields (PortfolioEntry.record "AAPL" (some 2) (some 150) (some 0)) 0).1 ∧
      h.currentPrice =
        (entryFields (PortfolioEntry.record "AAPL" (some 2) (some 150) (some 0)) 0).2.2.1 ∧
      h.gainLoss = 0 ∧ h.gainLossPercent = 0 :=
  fetchFailure_holding_retained
    [(PortfolioEntry.record "AAPL" (some 2) (some 150) (some 0), QuoteFetch.throws)]
    (PortfolioEntry.record "AAPL" (some 2) (some 150) (some 0)) 0
    (by decide) (by decide)

/-- C1 counterexample: an entry with one share at average price
10 whose quote fetch resolves with price field 0 is dropped:
processedHoldings is empty although the entry has positive shares,
refuting the claim that no positive-share holding is ever
omitted. -/
theorem zeroPrice_holding_dropped :
    0 < (entryFields (PortfolioEntry.record "AAPL" (some 1) (some 10) (some 0)) 0).2.1 ∧
    processedHoldings
      [(PortfolioEntry.record "AAPL" (some 1) (some 10) (some 0),
        QuoteFetch.responds (some 0) none)] 0 = [] :=
  ⟨by decide, by rfl⟩

end StockApp
